import Mathlib

/-!
Verification development for the `python_dj` real-time event-detection engine.

The per-chunk pipeline (frequency-band extraction, rolling statistics,
adaptive threshold and cooldown gating, event classification, intensity
scaling, tempo scheduling) is shallowly embedded here.  Real-valued audio
quantities (RMS volume, band energies, times in milliseconds) are modelled
over `ℚ`; the spectral transform used by the band analyzer is modelled over
`ℝ`/`ℂ`.  Stateful Python code (module-level globals, attribute-attached
history on callbacks) is modelled by explicit state passing; the black-box
tempo estimator and the event-emission sink are modelled as inputs/outputs
of the step function.
-/

/-- Arithmetic mean of a list of rationals, as `np.mean` produces on a
nonempty history; on the empty list this yields `0` (division by zero),
and every use below is guarded by a minimum-length check. -/
def listMean (l : List ℚ) : ℚ := l.sum / l.length

/-- One `append` on a `collections.deque(maxlen := cap)`: the value goes to
the right end and, if the buffer would exceed `cap`, the oldest (leftmost)
entries are discarded. -/
def pushHistory {α : Type} (cap : ℕ) (h : List α) (v : α) : List α :=
  let h2 := h ++ [v]
  if cap < h2.length then h2.drop (h2.length - cap) else h2

namespace Config

/-- Minimum milliseconds between flashes (config.py COOLDOWN_MS). -/
def COOLDOWN_MS : ℚ := 250

/-- Number of chunks kept for the rolling average (config.py HISTORY_SIZE). -/
def HISTORY_SIZE : ℕ := 10

/-- Multiplier for the dynamic volume threshold (config.py). -/
def VOLUME_THRESHOLD_MULTIPLIER : ℚ := 1.5

/-- Minimum RMS volume to trigger (config.py MIN_VOLUME_THRESHOLD). -/
def MIN_VOLUME_THRESHOLD : ℚ := 500

/-- Maximum RMS volume cap (config.py MAX_VOLUME_THRESHOLD). -/
def MAX_VOLUME_THRESHOLD : ℚ := 10000

end Config

namespace AIAnalyzer

/-- Event kinds produced by ai_audio_analyzer.detect_rhythm_event. -/
inductive EventType where
  | bass_drop
  | rhythm
  | vocal
  | build
deriving DecidableEq, Repr

/-- ai_audio_analyzer.detect_bass_drop: sudden large bass spike relative to
the rolling average, with an absolute 5000 floor. -/
def detect_bass_drop (bass_energy : ℚ) (bass_history : List ℚ) : Bool :=
  if bass_history.length < 5 then false
  else
    let avg_bass := listMean bass_history
    let threshold := avg_bass * 2.0
    decide (bass_energy > threshold ∧ bass_energy > 5000)

/-- ai_audio_analyzer.detect_rhythm_event.  The module-global
`last_flash_time` and the wall clock read `time.time() * 1000` are passed
explicitly; within one chunk the clock reads collapse to the single instant
`current_time`. -/
def detect_rhythm_event (current_time last_flash_time : ℚ)
    (bass_energy mid_energy : ℚ) (bass_history mid_history : List ℚ) :
    Option EventType :=
  if current_time - last_flash_time < Config.COOLDOWN_MS then none
  else if bass_history.length < 5 ∨ mid_history.length < 5 then none
  else
    let avg_bass := listMean bass_history
    let avg_mid := listMean mid_history
    if detect_bass_drop bass_energy bass_history then some .bass_drop
    else if bass_energy > avg_bass * 1.5 ∧ bass_energy > 3000 then some .rhythm
    else if mid_energy > avg_mid * 1.3 ∧ mid_energy > bass_energy * 1.2 then some .vocal
    else if 5 ≤ bass_history.length ∧
        List.Chain' (· < ·) (bass_history.drop (bass_history.length - 5)) then some .build
    else none

/-- ai_audio_analyzer.estimate_bpm: the librosa beat tracker is a black box
that may fail; its outcome is passed as an `Option`.  The try/except
wrapper returns the successful tempo, or `0` when the tracker raised. -/
def estimate_bpm (tracker_result : Option ℚ) : ℚ :=
  match tracker_result with
  | some tempo => tempo
  | none => 0

/-- Per-kind intensity table from ai_audio_analyzer.audio_callback. -/
def event_intensity : EventType → ℚ
  | .bass_drop => 1.0
  | .vocal => 0.7
  | .rhythm => 0.8
  | .build => 0.5

/-- Payload of send_flash_event, one emitted event. -/
structure Event where
  event_type : EventType
  intensity : ℚ
  bpm : ℚ
  bass_energy : ℚ
  mid_energy : ℚ
  high_energy : ℚ
  timestamp : ℚ
deriving DecidableEq, Repr

/-- Mutable module/attribute state of ai_audio_analyzer: volume_history
(module global), bass_history / mid_history / frame_counter (attached to
audio_callback), last_flash_time and current_bpm (module globals). -/
structure AIState where
  volume_history : List ℚ
  bass_history : List ℚ
  mid_history : List ℚ
  last_flash_time : ℚ
  current_bpm : ℚ
  frame_counter : ℕ
deriving DecidableEq, Repr

/-- One incoming chunk, reduced to the quantities the callback derives from
it: the callback instant in milliseconds, the RMS volume, the band energies
from analyze_frequency_bands, and the black-box beat-tracker outcome that
would be produced if estimate_bpm runs on this chunk. -/
structure ChunkInput where
  now_ms : ℚ
  rms : ℚ
  bass : ℚ
  mid : ℚ
  high : ℚ
  bpm_result : Option ℚ
deriving DecidableEq, Repr

/-- ai_audio_analyzer.audio_callback as a state transformer: pushes the
chunk quantities onto their histories, runs the 1-in-20 tempo schedule,
classifies, and on a classification emits the event (send_flash_event,
which also advances last_flash_time to the current instant). -/
def audio_callback (st : AIState) (c : ChunkInput) : AIState × Option Event :=
  let volume_history := pushHistory Config.HISTORY_SIZE st.volume_history c.rms
  let bass_history := pushHistory 10 st.bass_history c.bass
  let mid_history := pushHistory 10 st.mid_history c.mid
  let frame_counter := st.frame_counter + 1
  let current_bpm :=
    if frame_counter % 20 = 0 then estimate_bpm c.bpm_result else st.current_bpm
  match detect_rhythm_event c.now_ms st.last_flash_time c.bass c.mid
      bass_history mid_history with
  | some ev =>
      (⟨volume_history, bass_history, mid_history, c.now_ms, current_bpm, frame_counter⟩,
       some ⟨ev, event_intensity ev, current_bpm, c.bass, c.mid, c.high, c.now_ms⟩)
  | none =>
      (⟨volume_history, bass_history, mid_history, st.last_flash_time, current_bpm,
        frame_counter⟩, none)

/-- Whole run of the engine: fold audio_callback over a chunk stream and
collect the emitted events in order. -/
def run : AIState → List ChunkInput → List Event
  | _, [] => []
  | st, c :: cs =>
    match audio_callback st c with
    | (st2, some e) => e :: run st2 cs
    | (st2, none) => run st2 cs

end AIAnalyzer

namespace DJListener

/-- Mutable module state of dj_listener: volume_history and
last_flash_time. -/
structure State where
  volume_history : List ℚ
  last_flash_time : ℚ
deriving DecidableEq, Repr

/-- dj_listener.detect_beat as a state transformer: appends the current
volume, computes the clamped adaptive threshold, and on a beat inside the
cooldown window sets last_flash_time to the current instant itself. -/
def detect_beat (st : State) (rms_volume now_ms : ℚ) : Bool × State :=
  let volume_history := pushHistory Config.HISTORY_SIZE st.volume_history rms_volume
  if volume_history.length < 3 then (false, ⟨volume_history, st.last_flash_time⟩)
  else
    let avg_volume := listMean volume_history
    let threshold := max Config.MIN_VOLUME_THRESHOLD
      (min (avg_volume * Config.VOLUME_THRESHOLD_MULTIPLIER) Config.MAX_VOLUME_THRESHOLD)
    let is_beat := rms_volume > threshold
    if is_beat ∧ now_ms - st.last_flash_time ≥ Config.COOLDOWN_MS then
      (true, ⟨volume_history, now_ms⟩)
    else (false, ⟨volume_history, st.last_flash_time⟩)

/-- The pure gate decision of dj_listener.detect_beat, as a function of the
history the threshold is computed from (which in the source already
contains the value under test), the current volume, the clock, and the
cooldown state. -/
def gateDecision (volume_history : List ℚ) (rms_volume now_ms last_flash_time : ℚ) : Bool :=
  if volume_history.length < 3 then false
  else
    decide (rms_volume > max Config.MIN_VOLUME_THRESHOLD
        (min (listMean volume_history * Config.VOLUME_THRESHOLD_MULTIPLIER)
          Config.MAX_VOLUME_THRESHOLD)
      ∧ now_ms - last_flash_time ≥ Config.COOLDOWN_MS)

end DJListener

namespace MusicRhythmTest

/-- Mutable module state of music_rhythm_test: volume_history and
bass_history (both deque maxlen 20) and last_flash_time. -/
structure State where
  volume_history : List ℚ
  bass_history : List ℚ
  last_flash_time : ℚ
deriving DecidableEq, Repr

/-- music_rhythm_test.detect_beat as a state transformer; returns the
(is_beat, intensity) pair together with the updated module state. -/
def detect_beat (st : State) (rms_volume bass_energy now_ms : ℚ) :
    (Bool × ℚ) × State :=
  let volume_history := pushHistory 20 st.volume_history rms_volume
  let bass_history := pushHistory 20 st.bass_history bass_energy
  if volume_history.length < 5 then
    ((false, 0.0), ⟨volume_history, bass_history, st.last_flash_time⟩)
  else
    let volume_threshold := listMean volume_history * 1.5
    let bass_threshold := listMean bass_history * 1.8
    if now_ms - st.last_flash_time < Config.COOLDOWN_MS then
      ((false, 0.0), ⟨volume_history, bass_history, st.last_flash_time⟩)
    else if (rms_volume > volume_threshold ∧ rms_volume > 500) ∨
        (bass_energy > bass_threshold ∧ bass_energy > 1000) then
      ((true, min 1.0 (max 0.3 (rms_volume / 5000))),
       ⟨volume_history, bass_history, now_ms⟩)
    else ((false, 0.0), ⟨volume_history, bass_history, st.last_flash_time⟩)

end MusicRhythmTest

namespace LiveSong

/-- Mutable module state of live_song_analyzer: volume_history and
bass_history (both deque maxlen 30) and last_flash_time. -/
structure State where
  volume_history : List ℚ
  bass_history : List ℚ
  last_flash_time : ℚ
deriving DecidableEq, Repr

/-- live_song_analyzer.detect_beat as a state transformer; returns the
(is_beat, intensity) pair together with the updated module state. -/
def detect_beat (st : State) (rms bass now_ms : ℚ) : (Bool × ℚ) × State :=
  let volume_history := pushHistory 30 st.volume_history rms
  let bass_history := pushHistory 30 st.bass_history bass
  if volume_history.length < 10 then
    ((false, 0.0), ⟨volume_history, bass_history, st.last_flash_time⟩)
  else
    let vol_threshold := listMean volume_history * 1.6
    let bass_threshold := listMean bass_history * 1.9
    if now_ms - st.last_flash_time < Config.COOLDOWN_MS then
      ((false, 0.0), ⟨volume_history, bass_history, st.last_flash_time⟩)
    else if (rms > vol_threshold ∧ rms > 800) ∨
        (bass > bass_threshold ∧ bass > 2000) then
      ((true, min 1.0 (max 0.4 (rms / 4000))),
       ⟨volume_history, bass_history, now_ms⟩)
    else ((false, 0.0), ⟨volume_history, bass_history, st.last_flash_time⟩)

end LiveSong

namespace SimpleDemo

/-- Intensity expression of simple_rhythm_demo.analyze_music_file for a
chunk near a detected beat: min(1.0, rms * 10). -/
def music_file_intensity (rms : ℚ) : ℚ := min 1.0 (rms * 10)

end SimpleDemo

namespace AIAnalyzer

/-- One coefficient of the real-input discrete Fourier transform that
np.fft.rfft computes: the k-th complex coefficient of the full transform
of the sample list. -/
noncomputable def dftCoeff (x : List ℝ) (k : ℕ) : ℂ :=
  ∑ j ∈ Finset.range x.length,
    (x.getD j 0 : ℂ) *
      Complex.exp (-(2 * Real.pi * Complex.I * j * k) / x.length)

/-- np.fft.rfft: the first n / 2 + 1 coefficients of the transform. -/
noncomputable def rfft (x : List ℝ) : List ℂ :=
  (List.range (x.length / 2 + 1)).map (dftCoeff x)

/-- Magnitude spectrum np.abs(fft). -/
noncomputable def rfftMagnitudes (x : List ℝ) : List ℝ :=
  (rfft x).map Complex.abs

/-- np.fft.rfftfreq n (1 / sample_rate): the center frequency of each
retained bin, k * sample_rate / n. -/
noncomputable def rfftfreq (n : ℕ) (sample_rate : ℝ) : List ℝ :=
  (List.range (n / 2 + 1)).map (fun k => k * sample_rate / n)

/-- Band energy: the sum of magnitudes over all bins whose center
frequency lies in the inclusive range lo..hi, as the boolean-mask sum
magnitudes[(freqs >= lo) & (freqs <= hi)].sum() computes. -/
noncomputable def bandEnergy (mags freqs : List ℝ) (lo hi : ℝ) : ℝ :=
  ∑ i ∈ Finset.range freqs.length,
    if lo ≤ freqs.getD i 0 ∧ freqs.getD i 0 ≤ hi then mags.getD i 0 else 0

/-- ai_audio_analyzer.analyze_frequency_bands: the transform is applied to
the raw samples (no normalization step appears in the source), and the
four band energies are the masked magnitude sums over the inclusive
ranges bass 20..250, mid 250..2000, high 2000..8000, vocal 300..3400. -/
noncomputable def analyze_frequency_bands (audio_data : List ℝ)
    (sample_rate : ℝ) : ℝ × ℝ × ℝ × ℝ :=
  let magnitudes := rfftMagnitudes audio_data
  let frequencies := rfftfreq audio_data.length sample_rate
  (bandEnergy magnitudes frequencies 20 250,
   bandEnergy magnitudes frequencies 250 2000,
   bandEnergy magnitudes frequencies 2000 8000,
   bandEnergy magnitudes frequencies 300 3400)

/-- The band analyzer as the specification words it: identical to
analyze_frequency_bands except that the samples are first normalized to
the range -1..1 by dividing by 32768, the maximum representable magnitude
of the int16 sample type. -/
noncomputable def analyze_frequency_bands_spec (audio_data : List ℝ)
    (sample_rate : ℝ) : ℝ × ℝ × ℝ × ℝ :=
  analyze_frequency_bands (audio_data.map (fun s => s / 32768)) sample_rate

end AIAnalyzer

/-! ## Helper lemmas -/

/-- A classification of bass_drop passed the absolute 5000 energy floor. -/
theorem detect_bass_drop_floor (b : ℚ) (bh : List ℚ)
    (hd : AIAnalyzer.detect_bass_drop b bh = true) : b > 5000 := by
  simp only [AIAnalyzer.detect_bass_drop] at hd
  split_ifs at hd with h1
  exact (of_decide_eq_true hd).2

/-- The bass_drop and rhythm outcomes of the classifier are guarded by the
absolute floors 5000 and 3000 respectively. -/
theorem detect_rhythm_event_floors (t l b m : ℚ) (bh mh : List ℚ) :
    (AIAnalyzer.detect_rhythm_event t l b m bh mh = some .bass_drop → b > 5000) ∧
    (AIAnalyzer.detect_rhythm_event t l b m bh mh = some .rhythm → b > 3000) := by
  simp only [AIAnalyzer.detect_rhythm_event]
  split_ifs with h1 h2 h3 h4 h5 h6 <;> refine ⟨?_, ?_⟩ <;>
    first
      | exact fun _ => detect_bass_drop_floor b bh h3
      | exact fun _ => h4.2
      | (intro h; simp at h)

/-! ## Claim theorems -/

/-- C5: for every chunk and history state satisfying both the BassDrop
criterion (bass above twice the bass-history mean and above 5000) and the
Rhythm criterion (bass above 1.5 times the mean and above 3000), the
classifier returns bass_drop and never rhythm: first match wins. -/
theorem bass_drop_priority (current_time last_flash_time bass mid : ℚ)
    (bass_history mid_history : List ℚ)
    (hcool : current_time - last_flash_time ≥ Config.COOLDOWN_MS)
    (hbl : 5 ≤ bass_history.length) (hml : 5 ≤ mid_history.length)
    (hdrop : bass > listMean bass_history * 2.0 ∧ bass > 5000)
    (hryth : bass > listMean bass_history * 1.5 ∧ bass > 3000) :
    AIAnalyzer.detect_rhythm_event current_time last_flash_time bass mid
      bass_history mid_history = some .bass_drop := by
  have h1 : ¬(current_time - last_flash_time < Config.COOLDOWN_MS) := not_lt.mpr hcool
  have h2 : ¬(bass_history.length < 5 ∨ mid_history.length < 5) := by omega
  have h3 : AIAnalyzer.detect_bass_drop bass bass_history = true := by
    simp only [AIAnalyzer.detect_bass_drop]
    rw [if_neg (by omega)]
    exact decide_eq_true hdrop
  simp only [AIAnalyzer.detect_rhythm_event]
  rw [if_neg h1, if_neg h2, if_pos h3]

/-- C5 witness: bass 10000 over a bass-history mean of 1000 satisfies both
criteria and classifies as bass_drop. -/
theorem bass_drop_priority_witness :
    ((1000:ℚ) - 0 ≥ Config.COOLDOWN_MS ∧
      ((10000:ℚ) > listMean [1000,1000,1000,1000,1000] * 2.0 ∧ (10000:ℚ) > 5000) ∧
      ((10000:ℚ) > listMean [1000,1000,1000,1000,1000] * 1.5 ∧ (10000:ℚ) > 3000)) ∧
    AIAnalyzer.detect_rhythm_event 1000 0 10000 0
      [1000,1000,1000,1000,1000] [0,0,0,0,0] = some .bass_drop := by
  refine ⟨⟨by norm_num [Config.COOLDOWN_MS], ⟨by norm_num [listMean], by norm_num⟩,
    ⟨by norm_num [listMean], by norm_num⟩⟩, ?_⟩
  exact bass_drop_priority 1000 0 10000 0 _ _ (by norm_num [Config.COOLDOWN_MS])
    (by norm_num) (by norm_num) ⟨by norm_num [listMean], by norm_num⟩
    ⟨by norm_num [listMean], by norm_num⟩

/-- C6: when the last 5 bass-history samples are strictly increasing and no
higher-priority criterion (BassDrop, Rhythm, Vocal) matches, the classifier
yields build. -/
theorem build_on_monotone_bass (current_time last_flash_time bass mid : ℚ)
    (bass_history mid_history : List ℚ)
    (hcool : current_time - last_flash_time ≥ Config.COOLDOWN_MS)
    (hbl : 5 ≤ bass_history.length) (hml : 5 ≤ mid_history.length)
    (hinc : List.Chain' (· < ·) (bass_history.drop (bass_history.length - 5)))
    (hnd : ¬(bass > listMean bass_history * 2.0 ∧ bass > 5000))
    (hnr : ¬(bass > listMean bass_history * 1.5 ∧ bass > 3000))
    (hnv : ¬(mid > listMean mid_history * 1.3 ∧ mid > bass * 1.2)) :
    AIAnalyzer.detect_rhythm_event current_time last_flash_time bass mid
      bass_history mid_history = some .build := by
  have h1 : ¬(current_time - last_flash_time < Config.COOLDOWN_MS) := not_lt.mpr hcool
  have h2 : ¬(bass_history.length < 5 ∨ mid_history.length < 5) := by omega
  have h3 : AIAnalyzer.detect_bass_drop bass bass_history = false := by
    simp only [AIAnalyzer.detect_bass_drop]
    rw [if_neg (by omega)]
    exact decide_eq_false hnd
  simp only [AIAnalyzer.detect_rhythm_event]
  rw [if_neg h1, if_neg h2, if_neg (by simp [h3]), if_neg hnr, if_neg hnv,
    if_pos ⟨hbl, hinc⟩]

/-- C6 witness: the end-to-end scenario bass_history 100,200,300,400,500,
each below the drop and rhythm thresholds, yields build. -/
theorem build_on_monotone_bass_witness :
    ((1000:ℚ) - 0 ≥ Config.COOLDOWN_MS ∧
      List.Chain' (· < ·) (([100,200,300,400,500] : List ℚ).drop
        (([100,200,300,400,500] : List ℚ).length - 5)) ∧
      ¬((500:ℚ) > listMean [100,200,300,400,500] * 2.0 ∧ (500:ℚ) > 5000) ∧
      ¬((500:ℚ) > listMean [100,200,300,400,500] * 1.5 ∧ (500:ℚ) > 3000)) ∧
    AIAnalyzer.detect_rhythm_event 1000 0 500 0
      [100,200,300,400,500] [0,0,0,0,0] = some .build := by
  refine ⟨⟨by norm_num [Config.COOLDOWN_MS], by norm_num, by norm_num [listMean],
    by norm_num [listMean]⟩, ?_⟩
  exact build_on_monotone_bass 1000 0 500 0 _ _ (by norm_num [Config.COOLDOWN_MS])
    (by norm_num) (by norm_num) (by norm_num) (by norm_num [listMean])
    (by norm_num [listMean]) (by norm_num [listMean])

/-- C2 counterexample: a chunk whose energies all lie far below every
configured floor (bass 0, mid 10, both under MIN_VOLUME_THRESHOLD = 500 and
under the 3000/5000 classifier floors) still produces a vocal event: the
Vocal path carries no absolute minimum-energy guard. -/
theorem subfloor_vocal_event :
    ((0:ℚ) < Config.MIN_VOLUME_THRESHOLD ∧ (10:ℚ) < Config.MIN_VOLUME_THRESHOLD) ∧
    AIAnalyzer.detect_rhythm_event 1000 0 0 10 [1,1,1,1,1] [1,1,1,1,1]
      = some .vocal := by
  constructor
  · norm_num [Config.MIN_VOLUME_THRESHOLD]
  · norm_num [AIAnalyzer.detect_rhythm_event, AIAnalyzer.detect_bass_drop, listMean,
      Config.COOLDOWN_MS]

/-- C2 amended: only the BassDrop and Rhythm classification paths are
guarded by absolute minimum-energy floors (5000 and 3000 on bass energy),
and the dj_listener volume gate never fires at or below
MIN_VOLUME_THRESHOLD; the Vocal and Build paths have no such floor. -/
theorem subfloor_guard_drop_rhythm_only (current_time last_flash_time bass mid : ℚ)
    (bass_history mid_history : List ℚ) (hfloor : bass ≤ 3000) :
    AIAnalyzer.detect_rhythm_event current_time last_flash_time bass mid
        bass_history mid_history ≠ some .bass_drop ∧
    AIAnalyzer.detect_rhythm_event current_time last_flash_time bass mid
        bass_history mid_history ≠ some .rhythm ∧
    ∀ (st : DJListener.State) (rms now_ms : ℚ), rms ≤ Config.MIN_VOLUME_THRESHOLD →
      (DJListener.detect_beat st rms now_ms).1 = false := by
  obtain ⟨hd, hr⟩ := detect_rhythm_event_floors current_time last_flash_time bass mid
    bass_history mid_history
  refine ⟨fun h => absurd (hd h) (by linarith), fun h => absurd (hr h) (by linarith), ?_⟩
  intro st rms now_ms hrms
  simp only [DJListener.detect_beat]
  split_ifs with h1 h2
  · rfl
  · exfalso
    have hmax : Config.MIN_VOLUME_THRESHOLD ≤ max Config.MIN_VOLUME_THRESHOLD
        (min (listMean (pushHistory Config.HISTORY_SIZE st.volume_history rms) *
          Config.VOLUME_THRESHOLD_MULTIPLIER) Config.MAX_VOLUME_THRESHOLD) :=
      le_max_left _ _
    have := h2.1
    linarith
  · rfl

/-- C2 amended witness: bass 2999 is below the 3000 floor, so the
classifier cannot answer bass_drop or rhythm, and a 400-RMS chunk cannot
fire the dj_listener gate. -/
theorem subfloor_guard_witness :
    (2999:ℚ) ≤ 3000 ∧
    (AIAnalyzer.detect_rhythm_event 1000 0 2999 0 [1,1,1,1,1] [1,1,1,1,1]
        ≠ some .bass_drop ∧
      AIAnalyzer.detect_rhythm_event 1000 0 2999 0 [1,1,1,1,1] [1,1,1,1,1]
        ≠ some .rhythm ∧
      ∀ (st : DJListener.State) (rms now_ms : ℚ), rms ≤ Config.MIN_VOLUME_THRESHOLD →
        (DJListener.detect_beat st rms now_ms).1 = false) :=
  ⟨by norm_num, subfloor_guard_drop_rhythm_only 1000 0 2999 0 [1,1,1,1,1] [1,1,1,1,1]
    (by norm_num)⟩

/-- C3 counterexample: with a previously known tempo of 120, a scheduled
update (frame counter reaching 20) on which the black-box estimator fails
overwrites the shared current-tempo value with the sentinel 0 instead of
retaining 120. -/
theorem tempo_failure_not_retained :
    (⟨[], [], [], 0, 120, 19⟩ : AIAnalyzer.AIState).current_bpm = 120 ∧
    (AIAnalyzer.audio_callback ⟨[], [], [], 0, 120, 19⟩
        ⟨0, 0, 0, 0, 0, none⟩).1.current_bpm = 0 ∧
    (0:ℚ) ≠ 120 := by
  refine ⟨rfl, ?_, by norm_num⟩
  norm_num [AIAnalyzer.audio_callback, AIAnalyzer.detect_rhythm_event,
    AIAnalyzer.estimate_bpm, pushHistory, Config.COOLDOWN_MS, Config.HISTORY_SIZE]

/-- C3 amended: when the tempo estimator fails on a scheduled update (every
20th chunk), estimate_bpm returns the sentinel 0 and audio_callback writes
0 into the shared current-tempo value, overwriting the previous estimate;
the failure does not propagate as an exception (the step is total). -/
theorem tempo_failure_writes_zero (st : AIAnalyzer.AIState) (c : AIAnalyzer.ChunkInput)
    (hsched : (st.frame_counter + 1) % 20 = 0) (hfail : c.bpm_result = none) :
    (AIAnalyzer.audio_callback st c).1.current_bpm = 0 := by
  cases hdet : AIAnalyzer.detect_rhythm_event c.now_ms st.last_flash_time c.bass c.mid
      (pushHistory 10 st.bass_history c.bass) (pushHistory 10 st.mid_history c.mid) <;>
    simp [AIAnalyzer.audio_callback, hdet, hsched, hfail, AIAnalyzer.estimate_bpm]

/-- C3 amended witness: the concrete scheduled-failure step writes 0. -/
theorem tempo_failure_writes_zero_witness :
    ((⟨[], [], [], 0, 120, 19⟩ : AIAnalyzer.AIState).frame_counter + 1) % 20 = 0 ∧
    (⟨0, 0, 0, 0, 0, none⟩ : AIAnalyzer.ChunkInput).bpm_result = none ∧
    (AIAnalyzer.audio_callback ⟨[], [], [], 0, 120, 19⟩
        ⟨0, 0, 0, 0, 0, none⟩).1.current_bpm = 0 :=
  ⟨by norm_num, rfl, tempo_failure_writes_zero _ _ (by norm_num) rfl⟩

/-- C4 counterexample: a call of the dj_listener gate that returns true
also mutates the cooldown state: last_flash_time moves from 0 to the call
instant 1000, so updating it is not left to the caller. -/
theorem gate_mutates_cooldown_state :
    (DJListener.detect_beat ⟨[1000, 1000], 0⟩ 10000 1000).1 = true ∧
    (DJListener.detect_beat ⟨[1000, 1000], 0⟩ 10000 1000).2.last_flash_time = 1000 ∧
    (1000:ℚ) ≠ 0 := by
  refine ⟨?_, ?_, by norm_num⟩ <;>
    norm_num [DJListener.detect_beat, pushHistory, listMean, Config.COOLDOWN_MS,
      Config.HISTORY_SIZE, Config.MIN_VOLUME_THRESHOLD, Config.MAX_VOLUME_THRESHOLD,
      Config.VOLUME_THRESHOLD_MULTIPLIER]

/-- C4 amended: detect_beat is not a pure decision function: whenever it
returns true it itself sets last_flash_time to the current instant (and it
always appends to the volume history), so the caller performs no cooldown
update. -/
theorem gate_updates_last_flash (st : DJListener.State) (rms now_ms : ℚ)
    (h : (DJListener.detect_beat st rms now_ms).1 = true) :
    (DJListener.detect_beat st rms now_ms).2.last_flash_time = now_ms := by
  simp only [DJListener.detect_beat] at h ⊢
  split_ifs at h ⊢ with h1 h2
  rfl

/-- C4 amended witness: the firing call above indeed lands in the branch
that writes the call instant into last_flash_time. -/
theorem gate_updates_last_flash_witness :
    (DJListener.detect_beat ⟨[1000, 1000], 0⟩ 10000 1000).1 = true ∧
    (DJListener.detect_beat ⟨[1000, 1000], 0⟩ 10000 1000).2.last_flash_time = 1000 :=
  ⟨by norm_num [DJListener.detect_beat, pushHistory, listMean, Config.COOLDOWN_MS,
      Config.HISTORY_SIZE, Config.MIN_VOLUME_THRESHOLD, Config.MAX_VOLUME_THRESHOLD,
      Config.VOLUME_THRESHOLD_MULTIPLIER],
   gate_updates_last_flash ⟨[1000, 1000], 0⟩ 10000 1000
    (by norm_num [DJListener.detect_beat, pushHistory, listMean, Config.COOLDOWN_MS,
      Config.HISTORY_SIZE, Config.MIN_VOLUME_THRESHOLD, Config.MAX_VOLUME_THRESHOLD,
      Config.VOLUME_THRESHOLD_MULTIPLIER])⟩

/-- C7: every intensity the engine produces lies in the unit interval, for
every non-negative signal value: the music_rhythm_test mapper (floor 0.3,
scale 5000), the live_song_analyzer mapper (floor 0.4, scale 4000), the
file-analysis mapper min(1, rms * 10), and the fixed per-kind table of
ai_audio_analyzer. -/
theorem intensity_unit_interval (st1 : MusicRhythmTest.State) (st2 : LiveSong.State)
    (rms bass now_ms : ℚ) (hr : 0 ≤ rms) :
    (0 ≤ (MusicRhythmTest.detect_beat st1 rms bass now_ms).1.2 ∧
      (MusicRhythmTest.detect_beat st1 rms bass now_ms).1.2 ≤ 1) ∧
    (0 ≤ (LiveSong.detect_beat st2 rms bass now_ms).1.2 ∧
      (LiveSong.detect_beat st2 rms bass now_ms).1.2 ≤ 1) ∧
    (0 ≤ SimpleDemo.music_file_intensity rms ∧ SimpleDemo.music_file_intensity rms ≤ 1) ∧
    ∀ ev, 0 ≤ AIAnalyzer.event_intensity ev ∧ AIAnalyzer.event_intensity ev ≤ 1 := by
  refine ⟨?_, ?_, ?_, ?_⟩
  · simp only [MusicRhythmTest.detect_beat]
    split_ifs <;> constructor <;>
      first
        | norm_num
        | exact le_min (by norm_num) (le_trans (by norm_num) (le_max_left _ _))
        | exact min_le_left _ _
  · simp only [LiveSong.detect_beat]
    split_ifs <;> constructor <;>
      first
        | norm_num
        | exact le_min (by norm_num) (le_trans (by norm_num) (le_max_left _ _))
        | exact min_le_left _ _
  · exact ⟨le_min (by norm_num) (by positivity),
      le_trans (min_le_left _ _) (by norm_num)⟩
  · intro ev
    cases ev <;> norm_num [AIAnalyzer.event_intensity]

/-- C7 witness: at signal value 12345 every mapper stays inside the unit
interval. -/
theorem intensity_unit_interval_witness :
    (0:ℚ) ≤ 12345 ∧
    ((0 ≤ (MusicRhythmTest.detect_beat ⟨[], [], 0⟩ 12345 0 0).1.2 ∧
        (MusicRhythmTest.detect_beat ⟨[], [], 0⟩ 12345 0 0).1.2 ≤ 1) ∧
      (0 ≤ (LiveSong.detect_beat ⟨[], [], 0⟩ 12345 0 0).1.2 ∧
        (LiveSong.detect_beat ⟨[], [], 0⟩ 12345 0 0).1.2 ≤ 1) ∧
      (0 ≤ SimpleDemo.music_file_intensity 12345 ∧
        SimpleDemo.music_file_intensity 12345 ≤ 1) ∧
      ∀ ev, 0 ≤ AIAnalyzer.event_intensity ev ∧ AIAnalyzer.event_intensity ev ≤ 1) :=
  ⟨by norm_num, intensity_unit_interval ⟨[], [], 0⟩ ⟨[], [], 0⟩ 12345 0 0 (by norm_num)⟩

/-- C10: the current value is pushed onto its rolling history before any
threshold comparison: the dj_listener gate's updated state always holds the
pushed history (even when the call is suppressed by warm-up or cooldown),
and its decision equals the pure gate decision computed from the pushed
history, whose mean therefore includes the value under test; likewise
ai_audio_analyzer classifies against the already-pushed bass/mid histories
and music_rhythm_test pushes both histories unconditionally. -/
theorem history_updated_before_threshold (st : DJListener.State) (rms now_ms : ℚ) :
    (DJListener.detect_beat st rms now_ms).2.volume_history
        = pushHistory Config.HISTORY_SIZE st.volume_history rms ∧
    (DJListener.detect_beat st rms now_ms).1
        = DJListener.gateDecision (pushHistory Config.HISTORY_SIZE st.volume_history rms)
            rms now_ms st.last_flash_time ∧
    (∀ (ast : AIAnalyzer.AIState) (c : AIAnalyzer.ChunkInput),
      (AIAnalyzer.audio_callback ast c).1.volume_history
          = pushHistory Config.HISTORY_SIZE ast.volume_history c.rms ∧
      (AIAnalyzer.audio_callback ast c).1.bass_history
          = pushHistory 10 ast.bass_history c.bass ∧
      (AIAnalyzer.audio_callback ast c).1.mid_history
          = pushHistory 10 ast.mid_history c.mid ∧
      Option.map AIAnalyzer.Event.event_type (AIAnalyzer.audio_callback ast c).2
          = AIAnalyzer.detect_rhythm_event c.now_ms ast.last_flash_time c.bass c.mid
              (pushHistory 10 ast.bass_history c.bass)
              (pushHistory 10 ast.mid_history c.mid)) ∧
    ∀ (mst : MusicRhythmTest.State) (r b n : ℚ),
      (MusicRhythmTest.detect_beat mst r b n).2.volume_history
          = pushHistory 20 mst.volume_history r ∧
      (MusicRhythmTest.detect_beat mst r b n).2.bass_history
          = pushHistory 20 mst.bass_history b := by
  refine ⟨?_, ?_, ?_, ?_⟩
  · simp only [DJListener.detect_beat]
    split_ifs <;> rfl
  · simp only [DJListener.detect_beat, DJListener.gateDecision]
    split_ifs with h1 h2
    · rfl
    · exact (decide_eq_true h2).symm
    · exact (decide_eq_false h2).symm
  · intro ast c
    cases hdet : AIAnalyzer.detect_rhythm_event c.now_ms ast.last_flash_time c.bass c.mid
        (pushHistory 10 ast.bass_history c.bass) (pushHistory 10 ast.mid_history c.mid) <;>
      simp [AIAnalyzer.audio_callback, hdet]
  · intro mst r b n
    simp only [MusicRhythmTest.detect_beat]
    split_ifs <;> exact ⟨rfl, rfl⟩

/-- C9 helper: one push keeps the history length within capacity. -/
theorem pushHistory_length_le {α : Type} (cap : ℕ) (h : List α) (v : α)
    (hle : h.length ≤ cap) : (pushHistory cap h v).length ≤ cap := by
  simp only [pushHistory]
  split_ifs with h1 <;> simp_all <;> omega

/-- C9 helper: a push is exactly an append followed by trimming to the last
cap entries. -/
theorem pushHistory_eq_drop {α : Type} (cap : ℕ) (h : List α) (v : α) :
    pushHistory cap h v = (h ++ [v]).drop (h.length + 1 - cap) := by
  simp only [pushHistory]
  split_ifs with h1
  · simp
  · simp only [List.length_append, List.length_cons, List.length_nil] at h1
    have hz : h.length + 1 - cap = 0 := by omega
    rw [hz, List.drop_zero]

/-- C9 helper: the length after one push is the minimum of the grown length
and the capacity. -/
theorem pushHistory_length_eq {α : Type} (cap : ℕ) (h : List α) (v : α) :
    (pushHistory cap h v).length = min (h.length + 1) cap := by
  simp only [pushHistory]
  split_ifs with h1 <;> simp_all <;> omega

/-- C9 helper: folding pushes over a value stream keeps exactly the last
cap values of the concatenated stream, in order. -/
theorem foldl_pushHistory {α : Type} (cap : ℕ) (vs : List α) (h : List α)
    (hle : h.length ≤ cap) :
    vs.foldl (pushHistory cap) h = (h ++ vs).drop (h.length + vs.length - cap) := by
  induction vs generalizing h with
  | nil =>
      have hz : h.length - cap = 0 := by omega
      simp [hz]
  | cons v t ih =>
      rw [List.foldl_cons, ih _ (pushHistory_length_le cap h v hle),
        pushHistory_length_eq, pushHistory_eq_drop cap h v,
        List.drop_append_eq_append_drop, List.drop_drop, List.append_cons h v t,
        List.drop_append_eq_append_drop]
      have hlen : ((h ++ [v]).drop (h.length + 1 - cap)).length
          = min (h.length + 1) cap := by
        simp [List.length_drop]; omega
      rw [hlen]
      have e1 : h.length + 1 - cap + (min (h.length + 1) cap + t.length - cap)
          = h.length + (v :: t).length - cap := by
        simp only [List.length_cons]; omega
      have e2 : min (h.length + 1) cap + t.length - cap - min (h.length + 1) cap
          = h.length + (v :: t).length - cap - (h ++ [v]).length := by
        simp only [List.length_cons, List.length_append, List.length_nil]; omega
      rw [e1, e2, List.drop_append_eq_append_drop, List.drop_append_eq_append_drop]

/-- C9: a rolling history of capacity cap, fed cap + 1 values from empty,
holds exactly the last cap values in chronological order: the oldest value
is evicted (FIFO), the length equals the capacity, and pushes never grow a
history beyond its capacity. -/
theorem history_fifo_eviction (α : Type) (cap : ℕ) (vs : List α) (v0 : α)
    (hcap : 0 < cap) (hlen : vs.length = cap + 1) (hnd : vs.Nodup)
    (hv0 : vs.head? = some v0) :
    vs.foldl (pushHistory cap) [] = vs.tail ∧
    (vs.foldl (pushHistory cap) []).length = cap ∧
    v0 ∉ vs.foldl (pushHistory cap) [] ∧
    ∀ (h : List α) (w : α), h.length ≤ cap → (pushHistory cap h w).length ≤ cap := by
  have hfold : vs.foldl (pushHistory cap) [] = vs.tail := by
    rw [foldl_pushHistory cap vs [] (by simp)]
    have hz : ([] : List α).length + vs.length - cap = 1 := by simp [hlen]
    rw [hz, List.nil_append, List.drop_one]
  refine ⟨hfold, ?_, ?_, fun h w hw => pushHistory_length_le cap h w hw⟩
  · rw [hfold, List.length_tail, hlen]
    omega
  · rw [hfold]
    cases vs with
    | nil => cases hv0
    | cons a t =>
        have ha : a = v0 := by simpa using hv0
        subst ha
        simpa using (List.nodup_cons.mp hnd).1

/-- C9 witness: capacity 3, pushing 0,1,2,3 leaves 1,2,3; 0 is evicted. -/
theorem history_fifo_eviction_witness :
    (0 < 3 ∧ ([0, 1, 2, 3] : List ℕ).length = 3 + 1 ∧ ([0, 1, 2, 3] : List ℕ).Nodup ∧
      ([0, 1, 2, 3] : List ℕ).head? = some 0) ∧
    (([0, 1, 2, 3] : List ℕ).foldl (pushHistory 3) [] = ([0, 1, 2, 3] : List ℕ).tail ∧
      (([0, 1, 2, 3] : List ℕ).foldl (pushHistory 3) []).length = 3 ∧
      0 ∉ ([0, 1, 2, 3] : List ℕ).foldl (pushHistory 3) [] ∧
      ∀ (h : List ℕ) (w : ℕ), h.length ≤ 3 → (pushHistory 3 h w).length ≤ 3) :=
  ⟨⟨by decide, by decide, by decide, rfl⟩,
   history_fifo_eviction ℕ 3 [0, 1, 2, 3] 0 (by decide) (by decide) (by decide) rfl⟩

/-- C1 helper: a classification can only be produced once the cooldown
window since the last flash has elapsed. -/
theorem detect_event_after_cooldown (t l b m : ℚ) (bh mh : List ℚ)
    (ev : AIAnalyzer.EventType)
    (h : AIAnalyzer.detect_rhythm_event t l b m bh mh = some ev) :
    l + Config.COOLDOWN_MS ≤ t := by
  by_cases hc : t - l < Config.COOLDOWN_MS
  · simp only [AIAnalyzer.detect_rhythm_event] at h
    rw [if_pos hc] at h
    exact Option.noConfusion h
  · linarith [not_lt.mp hc]

/-- C1 helper: a firing callback stamps both the emitted event and the new
cooldown state with the chunk instant, which lies at least one cooldown
interval after the previous flash. -/
theorem audio_callback_fire (st st2 : AIAnalyzer.AIState) (c : AIAnalyzer.ChunkInput)
    (e : AIAnalyzer.Event) (hcb : AIAnalyzer.audio_callback st c = (st2, some e)) :
    e.timestamp = c.now_ms ∧ st2.last_flash_time = c.now_ms ∧
      st.last_flash_time + Config.COOLDOWN_MS ≤ c.now_ms := by
  simp only [AIAnalyzer.audio_callback] at hcb
  cases hdet : AIAnalyzer.detect_rhythm_event c.now_ms st.last_flash_time c.bass c.mid
      (pushHistory 10 st.bass_history c.bass) (pushHistory 10 st.mid_history c.mid) with
  | none => rw [hdet] at hcb; simp at hcb
  | some ev =>
      rw [hdet] at hcb
      rw [Prod.mk.injEq] at hcb
      obtain ⟨hst, hoe⟩ := hcb
      obtain he := Option.some.inj hoe
      refine ⟨?_, ?_, detect_event_after_cooldown _ _ _ _ _ _ ev hdet⟩
      · rw [← he]
      · rw [← hst]

/-- C1 helper: a quiet callback leaves the cooldown state unchanged. -/
theorem audio_callback_quiet (st st2 : AIAnalyzer.AIState) (c : AIAnalyzer.ChunkInput)
    (hcb : AIAnalyzer.audio_callback st c = (st2, none)) :
    st2.last_flash_time = st.last_flash_time := by
  simp only [AIAnalyzer.audio_callback] at hcb
  cases hdet : AIAnalyzer.detect_rhythm_event c.now_ms st.last_flash_time c.bass c.mid
      (pushHistory 10 st.bass_history c.bass) (pushHistory 10 st.mid_history c.mid) with
  | some ev => rw [hdet] at hcb; simp at hcb
  | none =>
      rw [hdet] at hcb
      rw [Prod.mk.injEq] at hcb
      rw [← hcb.1]

/-- C1 helper: the cooldown interval is non-negative. -/
theorem cooldown_nonneg : (0:ℚ) ≤ Config.COOLDOWN_MS := by
  norm_num [Config.COOLDOWN_MS]

/-- C1 helper: along any run, emitted events are pairwise separated by at
least the cooldown interval, and every emitted event lies at least one
interval after the initial cooldown state. -/
theorem run_cooldown_invariant (cs : List AIAnalyzer.ChunkInput)
    (st : AIAnalyzer.AIState) :
    (AIAnalyzer.run st cs).Pairwise
      (fun a b => a.timestamp + Config.COOLDOWN_MS ≤ b.timestamp) ∧
    ∀ e ∈ AIAnalyzer.run st cs,
      st.last_flash_time + Config.COOLDOWN_MS ≤ e.timestamp := by
  induction cs generalizing st with
  | nil => simp [AIAnalyzer.run]
  | cons c cs ih =>
      rcases hcb : AIAnalyzer.audio_callback st c with ⟨st2, oe⟩
      have hrun : AIAnalyzer.run st (c :: cs) =
          match oe with
          | some e => e :: AIAnalyzer.run st2 cs
          | none => AIAnalyzer.run st2 cs := by
        simp only [AIAnalyzer.run, hcb]
        cases oe <;> rfl
      cases oe with
      | none =>
          rw [hrun]
          have hlast := audio_callback_quiet st st2 c hcb
          exact ⟨(ih st2).1, fun e he => by
            have := (ih st2).2 e he
            rw [hlast] at this
            exact this⟩
      | some e =>
          rw [hrun]
          obtain ⟨hts, hlast, hcool⟩ := audio_callback_fire st st2 c e hcb
          have hrest := ih st2
          constructor
          · rw [List.pairwise_cons]
            refine ⟨fun b hb => ?_, hrest.1⟩
            have := hrest.2 b hb
            rw [hlast] at this
            rw [hts]
            exact this
          · intro e' he'
            rcases List.mem_cons.mp he' with he' | he'
            · rw [he', hts]
              exact hcool
            · have := hrest.2 e' he'
              rw [hlast] at this
              linarith [cooldown_nonneg]

/-- C1: for every run of the engine from any initial state, the emitted
events are pairwise separated by at least the configured cooldown interval
COOLDOWN_MS = 250 ms, regardless of which classification produced them:
every later event's timestamp is at least one cooldown interval after
every earlier event's timestamp. -/
theorem cooldown_separation (st : AIAnalyzer.AIState)
    (cs : List AIAnalyzer.ChunkInput) :
    (AIAnalyzer.run st cs).Pairwise
      (fun a b => a.timestamp + Config.COOLDOWN_MS ≤ b.timestamp) :=
  (run_cooldown_invariant cs st).1

/-- C8 helper: dividing every sample commutes with an indexed lookup whose
default is 0, since 0 / c = 0. -/
theorem getD_map_div (x : List ℝ) (c : ℝ) (j : ℕ) :
    (x.map (fun s => s / c)).getD j 0 = x.getD j 0 / c := by
  simp only [List.getD_eq_getElem?_getD, List.getElem?_map]
  cases x[j]? <;> simp

/-- C8 helper: the transform is linear, so normalizing the samples by 32768
divides every transform coefficient by 32768. -/
theorem dftCoeff_map_div (x : List ℝ) (k : ℕ) :
    AIAnalyzer.dftCoeff (x.map (fun s => s / 32768)) k
      = AIAnalyzer.dftCoeff x k / 32768 := by
  simp only [AIAnalyzer.dftCoeff, List.length_map]
  rw [Finset.sum_div]
  refine Finset.sum_congr rfl fun j _ => ?_
  rw [getD_map_div]
  push_cast
  ring

/-- C8 helper: pointwise, the raw magnitude spectrum is 32768 times the
normalized magnitude spectrum. -/
theorem rfftMagnitudes_map_div (x : List ℝ) (i : ℕ) :
    (AIAnalyzer.rfftMagnitudes x).getD i 0
      = 32768 * (AIAnalyzer.rfftMagnitudes (x.map (fun s => s / 32768))).getD i 0 := by
  simp only [AIAnalyzer.rfftMagnitudes, AIAnalyzer.rfft, List.length_map, List.map_map,
    List.getD_eq_getElem?_getD, List.getElem?_map]
  by_cases hi : i < x.length / 2 + 1
  · rw [List.getElem?_range hi]
    simp only [Option.map_some', Option.getD_some, Function.comp_apply]
    rw [dftCoeff_map_div, map_div₀, Complex.abs_ofNat]
    field_simp
  · rw [List.getElem?_eq_none (by simpa using not_lt.mp hi)]
    simp

/-- C8 helper: scaling every magnitude by a constant scales each band
energy by the same constant. -/
theorem bandEnergy_scale (mags mags2 freqs : List ℝ) (c lo hi : ℝ)
    (hpt : ∀ i, mags.getD i 0 = c * mags2.getD i 0) :
    AIAnalyzer.bandEnergy mags freqs lo hi
      = c * AIAnalyzer.bandEnergy mags2 freqs lo hi := by
  simp only [AIAnalyzer.bandEnergy]
  rw [Finset.mul_sum]
  refine Finset.sum_congr rfl fun i _ => ?_
  rw [hpt i]
  split_ifs <;> simp

/-- C8 amended: ai_audio_analyzer applies the spectral transform to the raw
samples with no normalization step; consequently every band energy it
returns is exactly 32768 times the value produced by the normalized
analyzer that the specification describes (same inclusive bands bass
20..250, mid 250..2000, high 2000..8000, vocal 300..3400). -/
theorem band_analyzer_scaling (audio_data : List ℝ) (sample_rate : ℝ) :
    AIAnalyzer.analyze_frequency_bands audio_data sample_rate
      = (32768 * (AIAnalyzer.analyze_frequency_bands_spec audio_data sample_rate).1,
         32768 * (AIAnalyzer.analyze_frequency_bands_spec audio_data sample_rate).2.1,
         32768 * (AIAnalyzer.analyze_frequency_bands_spec audio_data sample_rate).2.2.1,
         32768 * (AIAnalyzer.analyze_frequency_bands_spec audio_data sample_rate).2.2.2) := by
  have key : ∀ lo hi : ℝ,
      AIAnalyzer.bandEnergy (AIAnalyzer.rfftMagnitudes audio_data)
        (AIAnalyzer.rfftfreq audio_data.length sample_rate) lo hi
      = 32768 * AIAnalyzer.bandEnergy
          (AIAnalyzer.rfftMagnitudes (audio_data.map (fun s => s / 32768)))
          (AIAnalyzer.rfftfreq audio_data.length sample_rate) lo hi :=
    fun lo hi => bandEnergy_scale _ _ _ 32768 lo hi
      (fun i => rfftMagnitudes_map_div audio_data i)
  simp only [AIAnalyzer.analyze_frequency_bands_spec, AIAnalyzer.analyze_frequency_bands,
    List.length_map, key]

/-- C8 helper: every transform coefficient of a two-sample chunk whose
second sample is zero equals the first sample. -/
theorem dftCoeff_pair_zero (r : ℝ) (k : ℕ) :
    AIAnalyzer.dftCoeff [r, 0] k = (r : ℂ) := by
  have h2 : ([r, 0] : List ℝ).length = 2 := rfl
  simp only [AIAnalyzer.dftCoeff, h2]
  simp [Finset.sum_range_succ, List.getD_cons_zero, List.getD_cons_succ,
    Complex.exp_zero]

/-- C8 helper: on the two-sample chunk r, 0 at sample rate 100, the bass
band holds exactly the single 50 Hz bin, whose magnitude is r. -/
theorem analyze_pair_bass (r : ℝ) (hr : 0 ≤ r) :
    (AIAnalyzer.analyze_frequency_bands [r, 0] 100).1 = r := by
  have h2 : ([r, 0] : List ℝ).length = 2 := rfl
  simp only [AIAnalyzer.analyze_frequency_bands, AIAnalyzer.bandEnergy,
    AIAnalyzer.rfftMagnitudes, AIAnalyzer.rfft, AIAnalyzer.rfftfreq, h2, List.map_map]
  norm_num [List.range_succ, Finset.sum_range_succ, dftCoeff_pair_zero,
    Complex.abs_ofReal, abs_of_nonneg hr, List.getD_cons_zero, List.getD_cons_succ]

/-- C8 counterexample: on the chunk 32768, 0 at sample rate 100 the
analyzer returns bass energy 32768 while the normalized analyzer described
by the specification returns 1, so the claimed normalization of samples by
32768 before the transform does not happen. -/
theorem band_analyzer_no_normalization :
    (AIAnalyzer.analyze_frequency_bands [32768, 0] 100).1 = 32768 ∧
    (AIAnalyzer.analyze_frequency_bands_spec [32768, 0] 100).1 = 1 ∧
    AIAnalyzer.analyze_frequency_bands [32768, 0] 100
      ≠ AIAnalyzer.analyze_frequency_bands_spec [32768, 0] 100 := by
  have h1 : (AIAnalyzer.analyze_frequency_bands [32768, 0] 100).1 = 32768 :=
    analyze_pair_bass 32768 (by norm_num)
  have hmap : ([32768, 0] : List ℝ).map (fun s => s / 32768) = [1, 0] := by norm_num
  have h2 : (AIAnalyzer.analyze_frequency_bands_spec [32768, 0] 100).1 = 1 := by
    simp only [AIAnalyzer.analyze_frequency_bands_spec, hmap]
    exact analyze_pair_bass 1 (by norm_num)
  refine ⟨h1, h2, fun heq => ?_⟩
  rw [heq] at h1
  have h12 := h1.symm.trans h2
  norm_num at h12

